import Mathlib

/-!
Verification of `linux_thermaltake_riing` against its specification.

Shallow embedding of the two source files:
  - `linux_thermaltake_rgb/drivers.py` (packet framing of the USB driver)
  - `linux_thermaltake_rgb/lighting_manager.py` (effect factory, color math,
    temperature / temperature2 / clock effect frame computation)

Python numeric semantics are embedded as follows: `float` values that only
ever carry exact dyadic/rational data are modelled by `ℚ`; Python `round`
(round-half-to-even) is `pyRound`; Python `int()` truncation toward zero is
`pyInt`; `math.floor` is `Int.floor`; Python `%` on integers with a positive
modulus agrees with `Int.emod`, Lean's `%` on `ℤ`.
-/

namespace Thermaltake

/-! ## drivers.py : ThermaltakeControllerDriver packet framing -/

/-- Embeds `ThermaltakeControllerDriver._generate_data_array`:
`[value for _ in range(length)]` (Python `range` of a negative number is
empty, matching truncated `Nat` subtraction at every call site). -/
def generate_data_array (length : Nat) (value : Nat) : List Nat :=
  List.replicate length value

/-- Embeds `ThermaltakeControllerDriver._populate_partial_data_array`:
copies `in_array` and extends it with `_generate_data_array(length - len(in_array))`
zero bytes. -/
def populate_data_array (in_array : List Nat) (length : Nat) : List Nat :=
  in_array ++ generate_data_array (length - in_array.length) 0

/-- Modelled from the spec: the USB OUT endpoint (pyusb, an external
collaborator not in the repository) raises `OverflowError` when handed more
bytes than the 64-byte fixed transfer, and otherwise puts exactly the given
bytes on the wire ("TransferOverflow (silently discarded)", "always exactly
64 bytes on the wire"). -/
def endpointWrite (data : List Nat) : Except Unit (List Nat) :=
  if data.length > 64 then .error () else .ok data

/-- Result of one `write_out` call: what reached the endpoint (if anything),
whether an exception propagates to the caller, and the log lines emitted. -/
structure WriteResult where
  transmitted : Option (List Nat)
  raised : Bool
  logs : List String
  deriving DecidableEq

/-- Embeds `ThermaltakeControllerDriver.write_out`: pad the payload with
`_populate_partial_data_array`, hand it to the endpoint, and catch
`OverflowError` by silently returning (no log, no re-raise). -/
def write_out (data : List Nat) (length : Nat := 64) : WriteResult :=
  match endpointWrite (populate_data_array data length) with
  | .ok pkt => ⟨some pkt, false, []⟩
  | .error () => ⟨none, false, []⟩

/-- C1: for payloads of length 0..64, `write_out` with its default length 64
transmits exactly 64 bytes: the payload followed by zero padding. -/
theorem write_out_pads_to_64 (data : List Nat) (h : data.length ≤ 64) :
    write_out data 64 =
      ⟨some (data ++ List.replicate (64 - data.length) 0), false, []⟩ ∧
    (data ++ List.replicate (64 - data.length) 0).length = 64 ∧
    (data ++ List.replicate (64 - data.length) 0).take data.length = data ∧
    (data ++ List.replicate (64 - data.length) 0).drop data.length =
      List.replicate (64 - data.length) 0 := by
  have hlen : (data ++ List.replicate (64 - data.length) 0).length = 64 := by
    simp [List.length_append, List.length_replicate]
    omega
  refine ⟨?_, hlen, ?_, ?_⟩
  · unfold write_out endpointWrite populate_data_array generate_data_array
    rw [hlen]
    simp
  · exact List.take_left data _
  · exact List.drop_left data _

/-- Witness for C1 at the concrete payload `[1, 2, 3]`. -/
theorem write_out_pads_to_64_witness :
    ([1, 2, 3] : List Nat).length ≤ 64 ∧
    (write_out [1, 2, 3] 64 =
      ⟨some ([1, 2, 3] ++ List.replicate (64 - ([1, 2, 3] : List Nat).length) 0),
        false, []⟩ ∧
    (([1, 2, 3] : List Nat) ++ List.replicate (64 - ([1, 2, 3] : List Nat).length) 0).length = 64 ∧
    (([1, 2, 3] : List Nat) ++ List.replicate (64 - ([1, 2, 3] : List Nat).length) 0).take ([1, 2, 3] : List Nat).length = [1, 2, 3] ∧
    (([1, 2, 3] : List Nat) ++ List.replicate (64 - ([1, 2, 3] : List Nat).length) 0).drop ([1, 2, 3] : List Nat).length =
      List.replicate (64 - ([1, 2, 3] : List Nat).length) 0) :=
  ⟨by decide, write_out_pads_to_64 [1, 2, 3] (by decide)⟩

/-- C5: payloads longer than 64 are silently discarded by `write_out`:
nothing reaches the endpoint, no exception propagates, nothing is logged. -/
theorem write_out_overflow_discarded (data : List Nat) (h : data.length > 64) :
    write_out data 64 = ⟨none, false, []⟩ := by
  unfold write_out endpointWrite populate_data_array generate_data_array
  have hsub : 64 - data.length = 0 := by omega
  rw [hsub]
  simp only [List.replicate, List.append_nil]
  rw [if_pos (by simpa using h)]

/-- Witness for C5 at a concrete 65-byte payload. -/
theorem write_out_overflow_discarded_witness :
    (List.replicate 65 1 : List Nat).length > 64 ∧
    write_out (List.replicate 65 1) 64 = ⟨none, false, []⟩ :=
  ⟨by decide, write_out_overflow_discarded (List.replicate 65 1) (by decide)⟩

/-! ## Python numeric helpers -/

/-- Python `round` on an exact rational value: round half to even. -/
def pyRound (x : ℚ) : ℤ :=
  if x - ⌊x⌋ > 1 / 2 then ⌊x⌋ + 1
  else if x - ⌊x⌋ < 1 / 2 then ⌊x⌋
  else if ⌊x⌋ % 2 = 0 then ⌊x⌋ else ⌊x⌋ + 1

/-- Python `int()` on a rational value: truncation toward zero. -/
def pyInt (x : ℚ) : ℤ :=
  if 0 ≤ x then ⌊x⌋ else -⌊-x⌋

theorem pyRound_intCast (n : ℤ) : pyRound (n : ℚ) = n := by
  unfold pyRound
  rw [Int.floor_intCast]
  norm_num

/-! ## lighting_manager.py : compass_to_rgb -/

/-- Sector table of `compass_to_rgb`: the chained `if hi == 0 ... elif hi == 5`
selecting `(r, g, b)` from `v`, `p`, `q`, `t` (with the initial
`r, g, b = 0, 0, 0` as the fall-through). -/
def hsv_sector (hi : ℤ) (v p q t : ℚ) : ℚ × ℚ × ℚ :=
  if hi = 0 then (v, t, p)
  else if hi = 1 then (q, v, p)
  else if hi = 2 then (p, v, t)
  else if hi = 3 then (p, q, v)
  else if hi = 4 then (t, p, v)
  else if hi = 5 then (v, p, q)
  else (0, 0, 0)

/-- Final line of `compass_to_rgb`: scale each channel by 255, truncate with
`int()`, and emit in `(g, r, b)` wire order. -/
def rgb_bytes (rgb : ℚ × ℚ × ℚ) : ℤ × ℤ × ℤ :=
  (pyInt (rgb.2.1 * 255), pyInt (rgb.1 * 255), pyInt (rgb.2.2 * 255))

/-- Embeds `compass_to_rgb(h, s=1, v=1)`: hexagonal-sector HSV→RGB with
`hi = int(math.floor(h / 60)) % 6` and fractional part `f`; returns the
`(g, r, b)`-ordered byte triple. -/
def compass_to_rgb (h : ℚ) (s : ℚ := 1) (v : ℚ := 1) : ℤ × ℤ × ℤ :=
  let h60 : ℚ := h / 60
  let h60f : ℤ := ⌊h60⌋
  let hi : ℤ := h60f % 6
  let f : ℚ := h60 - (h60f : ℚ)
  let p : ℚ := v * (1 - s)
  let q : ℚ := v * (1 - f * s)
  let t : ℚ := v * (1 - (1 - f) * s)
  rgb_bytes (hsv_sector hi v p q t)

/-- C8: `compass_to_rgb` (with default `s = v = 1`) is periodic with period
360, and at every sector boundary `h = 60 * m` the byte triple computed from
the sector below (formula of sector `(m - 1) % 6` at fraction `f = 1`, where
`p = 0, q = 0, t = 1`) agrees with the one computed from the sector at the
boundary (sector `m % 6` at `f = 0`, where `p = 0, q = 1, t = 0`), which is
exactly what `compass_to_rgb` returns there. -/
theorem compass_to_rgb_period_and_sector_continuity :
    (∀ h : ℚ, compass_to_rgb (h + 360) 1 1 = compass_to_rgb h 1 1) ∧
    (∀ m : ℤ,
      compass_to_rgb (60 * (m : ℚ)) 1 1 = rgb_bytes (hsv_sector (m % 6) 1 0 1 0) ∧
      rgb_bytes (hsv_sector ((m - 1) % 6) 1 0 0 1) =
        rgb_bytes (hsv_sector (m % 6) 1 0 1 0)) := by
  constructor
  · intro h
    simp only [compass_to_rgb]
    have e1 : (h + 360) / 60 = h / 60 + ((6 : ℤ) : ℚ) := by push_cast; ring
    rw [e1, Int.floor_add_int]
    have e2 : (⌊h / 60⌋ + 6) % 6 = ⌊h / 60⌋ % 6 := by omega
    rw [e2]
    push_cast
    ring_nf
  · intro m
    constructor
    · simp only [compass_to_rgb]
      have e : 60 * (m : ℚ) / 60 = ((m : ℤ) : ℚ) := by ring
      rw [e, Int.floor_intCast]
      norm_num
    · have h6 : m % 6 = 0 ∨ m % 6 = 1 ∨ m % 6 = 2 ∨ m % 6 = 3 ∨
          m % 6 = 4 ∨ m % 6 = 5 := by omega
      rcases h6 with h0 | h0 | h0 | h0 | h0 | h0
      · have hm : (m - 1) % 6 = 5 := by omega
        rw [h0, hm]; norm_num [hsv_sector, rgb_bytes, pyInt]
      · have hm : (m - 1) % 6 = 0 := by omega
        rw [h0, hm]; norm_num [hsv_sector, rgb_bytes, pyInt]
      · have hm : (m - 1) % 6 = 1 := by omega
        rw [h0, hm]; norm_num [hsv_sector, rgb_bytes, pyInt]
      · have hm : (m - 1) % 6 = 2 := by omega
        rw [h0, hm]; norm_num [hsv_sector, rgb_bytes, pyInt]
      · have hm : (m - 1) % 6 = 3 := by omega
        rw [h0, hm]; norm_num [hsv_sector, rgb_bytes, pyInt]
      · have hm : (m - 1) % 6 = 4 := by omega
        rw [h0, hm]; norm_num [hsv_sector, rgb_bytes, pyInt]

/-! ## lighting_manager.py : TemperatureLightingEffect -/

/-- Class constant `TemperatureLightingEffect.cold_angle`. -/
def cold_angle : ℚ := 240

/-- Class constant `TemperatureLightingEffect.target_angle`. -/
def target_angle : ℚ := 120

/-- Class constant `TemperatureLightingEffect.hot_angle`. -/
def hot_angle : ℚ := 0

/-- Embeds the `self.angle` computation of `TemperatureLightingEffect.next`
(the `if/elif` chain on `self.cur_temp`); `cold`, `target`, `hot` are the
configured integer breakpoints, the reading is an exact sensor value. -/
def temperature_angle (cold target hot : ℤ) (cur_temp : ℚ) : ℚ :=
  if cur_temp ≤ (cold : ℚ) then cold_angle
  else if cur_temp < (target : ℚ) then
    (cold_angle - target_angle) / ((target : ℚ) - (cold : ℚ)) * ((target : ℚ) - cur_temp)
  else if cur_temp = (target : ℚ) then target_angle
  else if cur_temp > (hot : ℚ) then hot_angle
  else 120 - (target_angle - hot_angle) / ((hot : ℚ) - (target : ℚ)) * (cur_temp - (target : ℚ))

/-- C4: at breakpoints cold = 20, target = 30, hot = 60 and reading 25 the
code computes angle 60, while linear interpolation between the 240° anchor at
cold and the 120° anchor at target gives 180; in particular the computed
angle is not in [120, 240]. The first segment of the `if/elif` chain omits
the `target_angle` base offset. -/
theorem temperature_angle_cold_segment_not_anchored :
    temperature_angle 20 30 60 25 = 60 ∧
    cold_angle + (target_angle - cold_angle) * ((25 - 20 : ℚ) / (30 - 20)) = 180 ∧
    ¬ ((120 : ℚ) ≤ temperature_angle 20 30 60 25) := by
  norm_num [temperature_angle, cold_angle, target_angle]

/-- C6: with cold < target < hot, the angle computed by
`TemperatureLightingEffect.next` is 240 for readings ≤ cold, 0 for readings
≥ hot, 120 at the target, and non-increasing in the reading within each
breakpoint segment (strictly between cold and target, and from target to
hot). -/
theorem temperature_angle_breakpoint_shape (cold target hot : ℤ)
    (h1 : cold < target) (h2 : target < hot) :
    (∀ t : ℚ, t ≤ (cold : ℚ) → temperature_angle cold target hot t = 240) ∧
    (∀ t : ℚ, (hot : ℚ) ≤ t → temperature_angle cold target hot t = 0) ∧
    temperature_angle cold target hot ((target : ℤ) : ℚ) = 120 ∧
    (∀ t1 t2 : ℚ, (cold : ℚ) < t1 → t1 ≤ t2 → t2 < (target : ℚ) →
      temperature_angle cold target hot t2 ≤ temperature_angle cold target hot t1) ∧
    (∀ t1 t2 : ℚ, (target : ℚ) ≤ t1 → t1 ≤ t2 → t2 ≤ (hot : ℚ) →
      temperature_angle cold target hot t2 ≤ temperature_angle cold target hot t1) := by
  have hct : (cold : ℚ) < (target : ℚ) := by exact_mod_cast h1
  have hth : (target : ℚ) < (hot : ℚ) := by exact_mod_cast h2
  have hD1 : (0 : ℚ) < (target : ℚ) - (cold : ℚ) := by linarith
  have hD2 : (0 : ℚ) < (hot : ℚ) - (target : ℚ) := by linarith
  refine ⟨?_, ?_, ?_, ?_, ?_⟩
  · intro t ht
    simp only [temperature_angle, cold_angle]
    rw [if_pos ht]
  · intro t ht
    simp only [temperature_angle, cold_angle, target_angle, hot_angle]
    rcases lt_or_eq_of_le ht with hlt | heq
    · rw [if_neg (by linarith), if_neg (by linarith), if_neg (by linarith),
        if_pos hlt]
    · rw [if_neg (by linarith), if_neg (by linarith), if_neg (by linarith),
        if_neg (by linarith)]
      rw [← heq]
      field_simp
  · simp only [temperature_angle, target_angle]
    rw [if_neg (by linarith), if_neg (by linarith)]
    simp
  · intro t1 t2 ha hb hc
    simp only [temperature_angle, cold_angle, target_angle]
    rw [if_neg (by linarith), if_pos (by linarith),
      if_neg (by linarith), if_pos (by linarith)]
    have hfac : (0 : ℚ) ≤ (240 - 120) / ((target : ℚ) - (cold : ℚ)) := by positivity
    exact mul_le_mul_of_nonneg_left (by linarith) hfac
  · intro t1 t2 ha hb hc
    have hform : ∀ t : ℚ, (target : ℚ) ≤ t → t ≤ (hot : ℚ) →
        temperature_angle cold target hot t =
          120 - (120 - 0) / ((hot : ℚ) - (target : ℚ)) * (t - (target : ℚ)) := by
      intro t hta htb
      simp only [temperature_angle, target_angle, hot_angle]
      rcases lt_or_eq_of_le hta with hlt | heq
      · rw [if_neg (by linarith), if_neg (by linarith), if_neg (by linarith),
          if_neg (by linarith)]
      · rw [← heq]
        rw [if_neg (by linarith), if_neg (by linarith)]
        simp
    rw [hform t1 ha (le_trans hb hc), hform t2 (le_trans ha hb) hc]
    have hfac : (0 : ℚ) ≤ (120 - 0) / ((hot : ℚ) - (target : ℚ)) := by positivity
    have := mul_le_mul_of_nonneg_left (sub_le_sub_right hb (target : ℚ)) hfac
    linarith

/-- Witness for C6 at cold = 20, target = 30, hot = 60 (target reading). -/
theorem temperature_angle_breakpoint_shape_witness :
    (20 : ℤ) < 30 ∧ (30 : ℤ) < 60 ∧
    temperature_angle 20 30 60 ((30 : ℤ) : ℚ) = 120 :=
  ⟨by decide, by decide,
    (temperature_angle_breakpoint_shape 20 30 60 (by decide) (by decide)).2.2.1⟩

/-! ## lighting_manager.py : Temperature2LightingEffect -/

/-- Embeds the `RGBMap = namedtuple('RGBMap', ['g', 'r', 'b'])` of
`Temperature2LightingEffect` (and `AlternatingLightingEffect`): a color
triple indexed in `(g, r, b)` order. -/
structure RGBMap where
  g : ℤ
  r : ℤ
  b : ℤ
  deriving DecidableEq

/-- Positional indexing `rgbmap[i]` of the namedtuple. -/
def RGBMap.ix (m : RGBMap) : Nat → ℤ
  | 0 => m.g
  | 1 => m.r
  | _ => m.b

/-- Embeds the clamping prologue of `Temperature2LightingEffect.next`:
`if cur_temp < cold: cur_temp = cold; elif cur_temp > hot: cur_temp = hot`. -/
def temperature2_clamp (cold hot : ℤ) (reading : ℚ) : ℚ :=
  if reading < (cold : ℚ) then (cold : ℚ)
  else if reading > (hot : ℚ) then (hot : ℚ)
  else reading

/-- Embeds `factor = (cur_temp - cold) / (hot - cold)` of
`Temperature2LightingEffect.next`, applied to the clamped reading. -/
def temperature2_factor (cold hot : ℤ) (reading : ℚ) : ℚ :=
  (temperature2_clamp cold hot reading - (cold : ℚ)) / ((hot : ℚ) - (cold : ℚ))

/-- Embeds the `cur_rgb` update loop of `Temperature2LightingEffect.next`:
`cur_rgb[i] = cold_rgb[i] + round(factor * (hot_rgb[i] - cold_rgb[i]))` for
the three entries of `cur_rgb`; the result is broadcast to every LED slot. -/
def temperature2_next (cold hot : ℤ) (cold_rgb hot_rgb : RGBMap) (reading : ℚ) : List ℤ :=
  (List.range 3).map fun i =>
    cold_rgb.ix i +
      pyRound (temperature2_factor cold hot reading *
        ((hot_rgb.ix i : ℚ) - (cold_rgb.ix i : ℚ)))

/-- C7: with cold < hot the interpolation factor of
`Temperature2LightingEffect.next` always lies in [0, 1]; readings ≤ cold
produce exactly the `cold_rgb` triple and readings ≥ hot exactly the
`hot_rgb` triple (in the namedtuple's `(g, r, b)` order). -/
theorem temperature2_factor_clamped_and_endpoints (cold hot : ℤ)
    (cr hr : RGBMap) (h : cold < hot) :
    (∀ reading : ℚ, 0 ≤ temperature2_factor cold hot reading ∧
      temperature2_factor cold hot reading ≤ 1) ∧
    (∀ reading : ℚ, reading ≤ (cold : ℚ) →
      temperature2_next cold hot cr hr reading = [cr.g, cr.r, cr.b]) ∧
    (∀ reading : ℚ, (hot : ℚ) ≤ reading →
      temperature2_next cold hot cr hr reading = [hr.g, hr.r, hr.b]) := by
  have hch : (cold : ℚ) < (hot : ℚ) := by exact_mod_cast h
  have hD : (0 : ℚ) < (hot : ℚ) - (cold : ℚ) := by linarith
  have hclamp : ∀ reading : ℚ, (cold : ℚ) ≤ temperature2_clamp cold hot reading ∧
      temperature2_clamp cold hot reading ≤ (hot : ℚ) := by
    intro reading
    unfold temperature2_clamp
    split
    · exact ⟨le_refl _, le_of_lt hch⟩
    · split
      · exact ⟨le_of_lt hch, le_refl _⟩
      · constructor <;> linarith
  have hlo : ∀ reading : ℚ, reading ≤ (cold : ℚ) →
      temperature2_clamp cold hot reading = (cold : ℚ) := by
    intro reading hr0
    unfold temperature2_clamp
    rcases lt_or_eq_of_le hr0 with hlt | heq
    · rw [if_pos hlt]
    · rw [heq, if_neg (by linarith), if_neg (by linarith)]
  have hhi : ∀ reading : ℚ, (hot : ℚ) ≤ reading →
      temperature2_clamp cold hot reading = (hot : ℚ) := by
    intro reading hr0
    rcases lt_or_eq_of_le hr0 with hlt | heq
    · unfold temperature2_clamp
      rw [if_neg (by linarith), if_pos hlt]
    · unfold temperature2_clamp
      rw [← heq, if_neg (by linarith), if_neg (by linarith)]
  refine ⟨?_, ?_, ?_⟩
  · intro reading
    obtain ⟨hc1, hc2⟩ := hclamp reading
    unfold temperature2_factor
    constructor
    · apply div_nonneg (by linarith) (by linarith)
    · rw [div_le_one hD]
      linarith
  · intro reading hr0
    have hf : temperature2_factor cold hot reading = 0 := by
      unfold temperature2_factor
      rw [hlo reading hr0]
      simp
    unfold temperature2_next
    rw [hf]
    have h3 : List.range 3 = [0, 1, 2] := rfl
    rw [h3]
    simp only [List.map]
    have hz : ∀ x : ℚ, pyRound (0 * x) = 0 := by
      intro x
      rw [zero_mul]
      have := pyRound_intCast 0
      simpa using this
    rw [hz, hz, hz]
    simp [RGBMap.ix]
  · intro reading hr0
    have hf : temperature2_factor cold hot reading = 1 := by
      unfold temperature2_factor
      rw [hhi reading hr0]
      field_simp
    unfold temperature2_next
    rw [hf]
    have h3 : List.range 3 = [0, 1, 2] := rfl
    rw [h3]
    simp only [List.map]
    have he : ∀ i : Nat, cr.ix i + pyRound (1 * ((hr.ix i : ℚ) - (cr.ix i : ℚ))) = hr.ix i := by
      intro i
      rw [one_mul]
      have hcast : (hr.ix i : ℚ) - (cr.ix i : ℚ) = ((hr.ix i - cr.ix i : ℤ) : ℚ) := by
        push_cast
        ring
      rw [hcast, pyRound_intCast]
      ring
    rw [he, he, he]
    simp [RGBMap.ix]

/-- Witness for C7 at cold = 0, hot = 10, reading 5. -/
theorem temperature2_factor_clamped_and_endpoints_witness :
    (0 : ℤ) < 10 ∧
    (0 ≤ temperature2_factor 0 10 5 ∧ temperature2_factor 0 10 5 ≤ 1) :=
  ⟨by decide,
    (temperature2_factor_clamped_and_endpoints 0 10 ⟨1, 2, 3⟩ ⟨4, 5, 6⟩ (by decide)).1 5⟩

/-! ## lighting_manager.py : ClockLightingEffect

Anchor times and `now` are modelled as exact minutes on the day's timeline
(`datetime` arithmetic is exact); `one_day = datetime.timedelta(days=1)` is
1440 minutes. An anchor is one parsed `[timestamp, r, g, b]` entry. -/

/-- One parsed entry of `ClockLightingEffect.timestamps`. -/
structure ClockAnchor where
  t : ℚ
  r : ℤ
  g : ℤ
  b : ℤ
  deriving DecidableEq

/-- Positional access `timestamps[k][j]` for the color positions `j ≥ 1`. -/
def ClockAnchor.chan (a : ClockAnchor) : Nat → ℤ
  | 1 => a.r
  | 2 => a.g
  | _ => a.b

/-- The constant `one_day` of `ClockLightingEffect.next`, in minutes. -/
def one_day : ℚ := 1440

/-- Embeds the candidate update
`if not best or best[1] > timedelta: best = (i, timedelta)` used for both the
`before` and the `after` accumulator. -/
def updateBest (best : Option (Nat × ℚ)) (i : Nat) (d : ℚ) : Option (Nat × ℚ) :=
  match best with
  | none => some (i, d)
  | some (j, dj) => if dj > d then some (i, d) else some (j, dj)

/-- Embeds the anchor scan of `ClockLightingEffect.next`: one pass over
`enumerate(self.timestamps)` maintaining the nearest anchor before `now`
(distances measured today or from yesterday) and the nearest after `now`
(today or tomorrow); returns the `(before, after)` pair. -/
def clockScan (now : ℚ) (anchors : List ClockAnchor) :
    Option (Nat × ℚ) × Option (Nat × ℚ) :=
  anchors.enum.foldl
    (fun ba p =>
      if now > p.2.t then
        (updateBest ba.1 p.1 (now - p.2.t),
         updateBest ba.2 p.1 (p.2.t + one_day - now))
      else
        (updateBest ba.1 p.1 (now - (p.2.t - one_day)),
         updateBest ba.2 p.1 (p.2.t - now)))
    (none, none)

/-- Embeds the tail of `ClockLightingEffect.next`: the interpolation factor
`before[1] / (before[1] + after[1])`, the channel loop
`for i in range(0, 2)` updating `cur_rgb[0]` and `cur_rgb[1]` only, and the
reordering `cur_grb = [cur_rgb[1], cur_rgb[0], cur_rgb[2]]` that is broadcast
to the devices. Returns `some (cur_rgb, cur_grb)`; `none` models the
`TypeError` Python raises from `before[1]` when the anchor list is empty. -/
def clock_next (now : ℚ) (anchors : List ClockAnchor) (cur : ℤ × ℤ × ℤ) :
    Option ((ℤ × ℤ × ℤ) × (ℤ × ℤ × ℤ)) :=
  match clockScan now anchors with
  | (some bf, some af) =>
    let factor : ℚ := bf.2 / (bf.2 + af.2)
    let ba := anchors.getD bf.1 ⟨0, 0, 0, 0⟩
    let aa := anchors.getD af.1 ⟨0, 0, 0, 0⟩
    let c0 := pyRound ((ba.chan 1 : ℚ) + ((aa.chan 1 : ℚ) - (ba.chan 1 : ℚ)) * factor)
    let c1 := pyRound ((ba.chan 2 : ℚ) + ((aa.chan 2 : ℚ) - (ba.chan 2 : ℚ)) * factor)
    let rgb : ℤ × ℤ × ℤ := (c0, c1, cur.2.2)
    some (rgb, (rgb.2.1, rgb.1, rgb.2.2))
  | _ => none

/-- C2 failing input: anchors at 00:00 with (r,g,b) = (10,20,30) and at 12:00
with (50,60,200), queried at the 06:00 midpoint with the initial
`cur_rgb = [0,0,0]`. The red and green channels receive the channel-wise
averages 30 and 40, but the blue channel keeps the stale 0 because the
update loop runs `for i in range(0, 2)`; the claim's blue average would be
`round((30 + 200) / 2) = 115`. -/
theorem clock_next_midpoint_blue_channel_stale :
    clock_next 360 [⟨0, 10, 20, 30⟩, ⟨720, 50, 60, 200⟩] (0, 0, 0) =
      some ((30, 40, 0), (40, 30, 0)) ∧
    pyRound (((30 : ℚ) + 200) / 2) = 115 ∧
    ((0 : ℤ) ≠ 115) := by
  refine ⟨?_, ?_, by decide⟩
  · norm_num [clock_next, clockScan, updateBest, one_day, ClockAnchor.chan,
      List.enum, List.enumFrom, List.foldl, List.getD, pyRound]
  · norm_num [pyRound]

/-! ## lighting_manager.py : LightingEffect.factory -/

/-- Dynamic Python dict value: the factory only ever reads the `model`
entry, and only as a string (`.lower()` on anything else would raise
`AttributeError`); every other value is opaque to it. -/
inductive PyVal
  | str (s : String)
  | other (n : Nat)
  deriving DecidableEq

/-- One subclass of `LightingEffect`: its Python class name and its `model`
tag (`None` on the abstract intermediate classes). -/
structure EffectClass where
  name : String
  model : Option String
  deriving DecidableEq

/-- Modelled from the spec: `ClassifiedObject.inheritors` (defined in
`classified_object.py`, which is not among the given sources) "enumerates
all known effect types"; these are the subclasses of `LightingEffect`
declared in `lighting_manager.py`, with the `model` tag each declares. -/
def inheritors : List EffectClass :=
  [⟨"CustomLightingEffect", none⟩,
   ⟨"ThreadedCustomLightingEffect", none⟩,
   ⟨"AlternatingLightingEffect", some "alternating"⟩,
   ⟨"TemperatureLightingEffect", some "temperature"⟩,
   ⟨"Temperature2LightingEffect", some "temperature2"⟩,
   ⟨"ClockLightingEffect", some "clock"⟩,
   ⟨"ThermaltakeLightingEffect", none⟩,
   ⟨"FullLightingEffect", some "full"⟩,
   ⟨"OffLightingEffect", some "off"⟩,
   ⟨"PerLEDLightingEffect", some "perled"⟩,
   ⟨"FlowLightingEffect", some "flow"⟩,
   ⟨"SpectrumLightingEffect", some "spectrum"⟩,
   ⟨"RippleLightingEffect", some "ripple"⟩,
   ⟨"BlinkLightingEffect", some "blink"⟩,
   ⟨"PulseLightingEffect", some "pulse"⟩,
   ⟨"WaveLightingEffect", some "wave"⟩]

/-- Embeds Python `str.lower()` on the ASCII model tags: lowercase every
character. -/
def pyLower (s : String) : String :=
  ⟨s.data.map Char.toLower⟩

/-- Embeds Python `dict.pop(k)`: the value of `k` together with the mapping
with the `k` entry removed, or nothing (a `KeyError`) when `k` is absent. -/
def dictPop (cfg : List (String × PyVal)) (k : String) :
    Option (PyVal × List (String × PyVal)) :=
  match cfg.lookup k with
  | none => none
  | some v => some (v, cfg.filter (fun p => p.1 != k))

/-- Outcome of one `LightingEffect.factory(config)` call. `inst` is a
constructed instance, carrying the class name, its `model` tag and the
mapping left in the caller's hands; `noneWithWarning` is the caught
`KeyError` path (`LOGGER.warn`, implicit `return None`); `typeError` is
`subclass_dict.get(...)` yielding `None` and `None(config)` raising an
uncaught `TypeError`; `attributeError` is `.lower()` on a non-string. -/
inductive FactoryResult
  | inst (className : String) (model : Option String)
      (cfgAfterCall : List (String × PyVal))
  | noneWithWarning (cfgAfterCall : List (String × PyVal))
  | typeError (cfgAfterCall : List (String × PyVal))
  | attributeError (cfgAfterCall : List (String × PyVal))
  deriving DecidableEq

/-- State of the caller's configuration mapping after the factory call. -/
def FactoryResult.cfgAfter : FactoryResult → List (String × PyVal)
  | .inst _ _ rest => rest
  | .noneWithWarning rest => rest
  | .typeError rest => rest
  | .attributeError rest => rest

/-- Embeds `LightingEffect.factory`:
`subclass_dict.get(config.pop('model').lower())(config)` under a
`try/except KeyError` that logs a warning. The dict comprehension keyed on
`clazz.model` keeps the last class for a duplicated tag, hence the lookup
over the reversed inheritor list. -/
def factory (cfg : List (String × PyVal)) : FactoryResult :=
  match dictPop cfg "model" with
  | none => .noneWithWarning cfg
  | some (.other _, rest) => .attributeError rest
  | some (.str s, rest) =>
    match inheritors.reverse.find? (fun c => c.model == some (pyLower s)) with
    | some c => .inst c.name c.model rest
    | none => .typeError rest

/-- C3 counterexample: with `{'model': 'doesnotexist'}` the lookup yields no
class, so `None(config)` raises `TypeError`; the factory does not log a
warning and return `None`. -/
theorem factory_unknown_model_raises :
    factory [("model", PyVal.str "doesnotexist")] = FactoryResult.typeError [] ∧
    factory [("model", PyVal.str "doesnotexist")] ≠
      FactoryResult.noneWithWarning [] := by
  constructor
  · rfl
  · decide

/-- C3 amended: the factory pops `model` and looks the value up lowercased;
a missing `model` key is caught and reported as a warning with `None`
returned, `{'model': 'off'}` (in any casing) yields an `OffLightingEffect`
instance whose tag is `off`, but an unmatched value makes the call raise
`TypeError` instead of returning `None`. -/
theorem factory_lookup_behavior :
    (∀ cfg : List (String × PyVal), cfg.lookup "model" = none →
      factory cfg = FactoryResult.noneWithWarning cfg) ∧
    factory [("model", PyVal.str "off")] =
      FactoryResult.inst "OffLightingEffect" (some "off") [] ∧
    factory [("model", PyVal.str "OFF")] =
      FactoryResult.inst "OffLightingEffect" (some "off") [] ∧
    (∀ (cfg : List (String × PyVal)) (s : String),
      cfg.lookup "model" = some (PyVal.str s) →
      inheritors.reverse.find? (fun c => c.model == some (pyLower s)) = none →
      factory cfg = FactoryResult.typeError
        (cfg.filter (fun p => p.1 != "model"))) := by
  refine ⟨?_, by rfl, by rfl, ?_⟩
  · intro cfg h
    unfold factory dictPop
    rw [h]
  · intro cfg s h hfind
    unfold factory dictPop
    rw [h]
    simp only []
    rw [hfind]

/-- Witness for C3 (amended) on the empty mapping: no `model` key, warning
path returns nothing. -/
theorem factory_lookup_behavior_witness :
    (([] : List (String × PyVal)).lookup "model" = none) ∧
    factory [] = FactoryResult.noneWithWarning [] :=
  ⟨rfl, factory_lookup_behavior.1 [] rfl⟩

theorem lookup_cons (k k1 : String) (v1 : PyVal) (tl : List (String × PyVal)) :
    ((k1, v1) :: tl).lookup k = if k = k1 then some v1 else tl.lookup k := by
  by_cases h : k = k1
  · simp [List.lookup, h]
  · have hb : (k == k1) = false := by
      simp [h]
    simp [List.lookup, hb, h]

theorem filter_ne_cons (k0 k1 : String) (v1 : PyVal) (tl : List (String × PyVal)) :
    ((k1, v1) :: tl).filter (fun p => p.1 != k0) =
      if k1 = k0 then tl.filter (fun p => p.1 != k0)
      else (k1, v1) :: tl.filter (fun p => p.1 != k0) := by
  by_cases h : k1 = k0
  · simp [List.filter_cons, h]
  · simp [List.filter_cons, h]

theorem lookup_filter_ne (l : List (String × PyVal)) (k k0 : String)
    (hk : k ≠ k0) :
    (l.filter (fun p => p.1 != k0)).lookup k = l.lookup k := by
  induction l with
  | nil => rfl
  | cons hd tl ih =>
    rcases hd with ⟨k1, v1⟩
    rw [filter_ne_cons, lookup_cons]
    by_cases h1 : k1 = k0
    · rw [if_pos h1, if_neg (by rw [h1]; exact hk), ih]
    · rw [if_neg h1, lookup_cons]
      by_cases h2 : k = k1
      · rw [if_pos h2, if_pos h2]
      · rw [if_neg h2, if_neg h2, ih]

theorem lookup_filter_self (l : List (String × PyVal)) (k0 : String) :
    (l.filter (fun p => p.1 != k0)).lookup k0 = none := by
  induction l with
  | nil => rfl
  | cons hd tl ih =>
    rcases hd with ⟨k1, v1⟩
    rw [filter_ne_cons]
    by_cases h1 : k1 = k0
    · rw [if_pos h1, ih]
    · rw [if_neg h1, lookup_cons, if_neg (fun h => h1 h.symm), ih]

/-- C10: whenever the `model` key is present the factory call removes it (and
nothing else) from the caller's mapping, in every outcome branch, so a
second call on the same mapping takes the missing-key warning path. -/
theorem factory_removes_model_key (cfg : List (String × PyVal)) (v : PyVal)
    (h : cfg.lookup "model" = some v) :
    (factory cfg).cfgAfter = cfg.filter (fun p => p.1 != "model") ∧
    (∀ k : String, k ≠ "model" →
      ((factory cfg).cfgAfter).lookup k = cfg.lookup k) ∧
    factory ((factory cfg).cfgAfter) =
      FactoryResult.noneWithWarning ((factory cfg).cfgAfter) := by
  have hpop : dictPop cfg "model" =
      some (v, cfg.filter (fun p => p.1 != "model")) := by
    unfold dictPop
    rw [h]
  have hafter : (factory cfg).cfgAfter = cfg.filter (fun p => p.1 != "model") := by
    unfold factory
    rw [hpop]
    rcases v with s | n
    · rcases hfind : inheritors.reverse.find? (fun c => c.model == some (pyLower s))
          with _ | c
      · simp only [hfind, FactoryResult.cfgAfter]
      · simp only [hfind, FactoryResult.cfgAfter]
    · simp only [FactoryResult.cfgAfter]
  refine ⟨hafter, ?_, ?_⟩
  · intro k hk
    rw [hafter]
    exact lookup_filter_ne cfg k "model" hk
  · rw [hafter]
    have hnone : (cfg.filter (fun p => p.1 != "model")).lookup "model" = none :=
      lookup_filter_self cfg "model"
    unfold factory dictPop
    rw [hnone]

/-- Witness for C10 on `{'model': 'temperature', 'speed': 'slow'}`. -/
theorem factory_removes_model_key_witness :
    (([("model", PyVal.str "temperature"), ("speed", PyVal.str "slow")] :
        List (String × PyVal)).lookup "model" = some (PyVal.str "temperature")) ∧
    factory ((factory [("model", PyVal.str "temperature"),
        ("speed", PyVal.str "slow")]).cfgAfter) =
      FactoryResult.noneWithWarning
        ((factory [("model", PyVal.str "temperature"),
          ("speed", PyVal.str "slow")]).cfgAfter) :=
  ⟨rfl, (factory_removes_model_key
    [("model", PyVal.str "temperature"), ("speed", PyVal.str "slow")]
    (PyVal.str "temperature") rfl).2.2⟩

end Thermaltake
